import Mathlib

/-!
Shallow embedding of the session/entry tracker in
`stress-monitor-extension/src/stressMonitor.ts` (class `StressMonitor`).

Modelling choices:
* Timestamps (`Date.getTime()`) are `Nat` milliseconds.  The spec assumes a
  monotonic wall-clock source, so traces carry nondecreasing step times.
* In the TypeScript code `currentSession` is a reference that aliases the
  object stored in the `sessions` array; mutating one mutates the other,
  and `clearHistory` empties `sessions` while `currentSession` keeps
  pointing at the (now orphaned) object.  We model this with an `arena`
  holding every session object ever created; `sessions` and
  `currentSession` hold indices into the arena, and mutation is
  `List.set` on the arena.
* `NodeJS.Timeout` is modelled as `Option Nat`: `some d` means a timeout
  is scheduled to fire at absolute time `d`; `clearTimeout` is `none`.
* The level-change callback is external code that only observes the
  tracker; an operation returns the list of calls made to it, each call
  recording the arguments passed and the current level the callback
  would observe via `getCurrentLevel()` while it runs.
* `Math.round` on a nonnegative rational `a / b` is
  `⌊a / b + 1/2⌋ = (2a + b) / (2b)` in natural division.
* JavaScript truthiness of `session.duration` (used by
  `getTotalCodingTimeToday` and `getSessionStats`): `undefined` and `0`
  are falsy, every other `Nat` value is truthy.
-/

/-- `type StressLevel = 'low' | 'medium' | 'high'`. -/
inductive StressLevel where
  | low
  | medium
  | high
deriving DecidableEq, Repr

/-- `interface StressEntry` — timestamp in ms, level, notes. -/
structure StressEntry where
  timestamp : Nat
  level : StressLevel
  notes : String
deriving DecidableEq, Repr

/-- `interface CodingSession`. -/
structure CodingSession where
  startTime : Nat
  endTime : Option Nat
  duration : Option Nat
  stressEvents : List StressEntry
  isActive : Bool
deriving DecidableEq, Repr

/-- The mutable fields of class `StressMonitor`, with the arena model for
the aliasing between `currentSession` and the `sessions` array. -/
structure MonitorState where
  entries : List StressEntry
  currentLevel : StressLevel
  arena : List CodingSession
  sessions : List Nat
  currentSession : Option Nat
  sessionTimeout : Option Nat
  callbackSet : Bool
deriving DecidableEq, Repr

/-- One invocation of the registered level-change callback: the two
arguments passed, and the value `getCurrentLevel()` returns while the
callback runs (the tracker state at the moment of invocation). -/
structure CallbackCall where
  newLevel : StressLevel
  previousLevel : StressLevel
  observedCurrentLevel : StressLevel
deriving DecidableEq, Repr

/-- `Math.round (num / den)` for natural `num`, positive natural `den`. -/
def jsRound (num den : Nat) : Nat :=
  (2 * num + den) / (2 * den)

/-- JavaScript truthiness of the optional `duration` field. -/
def durTruthy : Option Nat → Bool
  | some d => d != 0
  | none => false

/-- `SESSION_TIMEOUT_MINUTES = 30`. -/
def SESSION_TIMEOUT_MINUTES : Nat := 30

/-- Initial state of a fresh `StressMonitor` instance. -/
def initialState : MonitorState :=
  { entries := []
    currentLevel := .low
    arena := []
    sessions := []
    currentSession := none
    sessionTimeout := none
    callbackSet := false }

namespace MonitorState

/-- Dereference an arena index. -/
def sessionAt (s : MonitorState) (i : Nat) : Option CodingSession :=
  s.arena[i]?

/-- `getCurrentSession()` — the object `this.currentSession` refers to. -/
def getCurrentSession (s : MonitorState) : Option CodingSession :=
  s.currentSession.bind s.sessionAt

/-- `getCurrentLevel()`. -/
def getCurrentLevel (s : MonitorState) : StressLevel :=
  s.currentLevel

/-- `getAllEntries()`. -/
def getAllEntries (s : MonitorState) : List StressEntry :=
  s.entries

/-- `getAllSessions()` — the objects in the `sessions` array, in order. -/
def getAllSessions (s : MonitorState) : List CodingSession :=
  s.sessions.filterMap s.sessionAt

/-- `getTodaysEntries()`; `midnight` is today's local midnight in ms. -/
def getTodaysEntries (s : MonitorState) (midnight : Nat) : List StressEntry :=
  s.entries.filter (fun entry => midnight ≤ entry.timestamp)

/-- `getTodaysSessions()`; `midnight` is today's local midnight in ms. -/
def getTodaysSessions (s : MonitorState) (midnight : Nat) : List CodingSession :=
  (s.getAllSessions).filter (fun session => midnight ≤ session.startTime)

/-- `endCurrentSession()` (private): if the current session exists and is
active, set its end time, duration `round((end − start) / 60000)` and
deactivate it; in all cases clear the pending timeout. -/
def endCurrentSession (s : MonitorState) (now : Nat) : MonitorState :=
  let s1 :=
    match s.currentSession with
    | none => s
    | some i =>
      match s.arena[i]? with
      | none => s
      | some sess =>
        if sess.isActive then
          let closed := { sess with
            endTime := some now
            duration := some (jsRound (now - sess.startTime) (1000 * 60))
            isActive := false }
          { s with arena := s.arena.set i closed }
        else s
  { s1 with sessionTimeout := none }

/-- `startNewSession()` (private): end the previous session, then create a
fresh active session and push it (its arena index) onto `sessions`. -/
def startNewSession (s : MonitorState) (now : Nat) : MonitorState :=
  let s1 := s.endCurrentSession now
  let idx := s1.arena.length
  { s1 with
      arena := s1.arena ++ [{ startTime := now
                              endTime := none
                              duration := none
                              stressEvents := []
                              isActive := true }]
      currentSession := some idx
      sessions := s1.sessions ++ [idx] }

/-- `ensureSessionStarted()` (private). -/
def ensureSessionStarted (s : MonitorState) (now : Nat) : MonitorState :=
  match s.getCurrentSession with
  | none => s.startNewSession now
  | some sess => if sess.isActive then s else s.startNewSession now

/-- `addEntryToCurrentSession(entry)` (private). -/
def addEntryToCurrentSession (s : MonitorState) (entry : StressEntry) : MonitorState :=
  match s.currentSession with
  | none => s
  | some i =>
    match s.arena[i]? with
    | none => s
    | some sess =>
      if sess.isActive then
        let updated := { sess with stressEvents := sess.stressEvents ++ [entry] }
        { s with arena := s.arena.set i updated }
      else s

/-- `resetSessionTimeout()` (private): cancel any pending timeout and
schedule a new one 30 minutes from now. -/
def resetSessionTimeout (s : MonitorState) (now : Nat) : MonitorState :=
  { s with sessionTimeout := some (now + SESSION_TIMEOUT_MINUTES * 60 * 1000) }

/-- `reportStress()`. -/
def reportStress (s : MonitorState) (now : Nat) : MonitorState :=
  let s1 := s.ensureSessionStarted now
  let s2 := { s1 with currentLevel := .high }
  let entry : StressEntry := ⟨now, .high, "Manual stress report"⟩
  let s3 := { s2 with entries := s2.entries ++ [entry] }
  let s4 := s3.addEntryToCurrentSession entry
  s4.resetSessionTimeout now

/-- `reportCalm()`. -/
def reportCalm (s : MonitorState) (now : Nat) : MonitorState :=
  let s1 := s.ensureSessionStarted now
  let s2 := { s1 with currentLevel := .low }
  let entry : StressEntry := ⟨now, .low, "Manual calm report"⟩
  let s3 := { s2 with entries := s2.entries ++ [entry] }
  let s4 := s3.addEntryToCurrentSession entry
  s4.resetSessionTimeout now

/-- `updateFromHardware(gsrValue)` — converts a GSR reading to a level. -/
def updateFromHardware (s : MonitorState) (now : Nat) (gsrValue : Int) : MonitorState :=
  let s1 := s.ensureSessionStarted now
  let level : StressLevel :=
    if gsrValue > 80 then .high else if gsrValue > 40 then .medium else .low
  let s2 := { s1 with currentLevel := level }
  let entry : StressEntry := ⟨now, level, "GSR: " ++ toString gsrValue⟩
  let s3 := { s2 with entries := s2.entries ++ [entry] }
  let s4 := s3.addEntryToCurrentSession entry
  s4.resetSessionTimeout now

/-- `getCurrentSessionDuration()` — live elapsed minutes of the active
session, else 0. -/
def getCurrentSessionDuration (s : MonitorState) (now : Nat) : Nat :=
  match s.getCurrentSession with
  | none => 0
  | some sess =>
    if sess.isActive then jsRound (now - sess.startTime) (1000 * 60) else 0

/-- `getTotalCodingTimeToday()` — the loop over today's sessions: add the
stored duration when truthy, else the live current-session duration when
the session is active. -/
def getTotalCodingTimeToday (s : MonitorState) (now midnight : Nat) : Nat :=
  (s.getTodaysSessions midnight).foldl
    (fun total session =>
      if durTruthy session.duration then total + session.duration.getD 0
      else if session.isActive then total + s.getCurrentSessionDuration now
      else total) 0

/-- Result record of `getSessionStats()`. -/
structure SessionStats where
  averageSessionLength : Nat
  totalSessions : Nat
  longestSession : Nat
deriving DecidableEq, Repr

/-- `getSessionStats()` — over sessions with truthy positive duration. -/
def getSessionStats (s : MonitorState) : SessionStats :=
  let completedSessions :=
    (s.getAllSessions).filter (fun sess => durTruthy sess.duration)
  if completedSessions.length = 0 then
    { averageSessionLength := 0, totalSessions := 0, longestSession := 0 }
  else
    let totalTime :=
      completedSessions.foldl (fun sum sess => sum + sess.duration.getD 0) 0
    let longestSession :=
      completedSessions.foldl (fun m sess => max m (sess.duration.getD 0)) 0
    { averageSessionLength := jsRound totalTime completedSessions.length
      totalSessions := completedSessions.length
      longestSession := longestSession }

/-- `clearHistory()`. -/
def clearHistory (s : MonitorState) (now : Nat) : MonitorState :=
  let s1 := { s with entries := [], currentLevel := StressLevel.low }
  let s2 := s1.endCurrentSession now
  { s2 with sessions := [] }

/-- `startCodingSession()`. -/
def startCodingSession (s : MonitorState) (now : Nat) : MonitorState :=
  (s.startNewSession now).resetSessionTimeout now

/-- `endCodingSession()`. -/
def endCodingSession (s : MonitorState) (now : Nat) : MonitorState :=
  s.endCurrentSession now

/-- `setStressLevelChangeCallback(callback)`. -/
def setStressLevelChangeCallback (s : MonitorState) : MonitorState :=
  { s with callbackSet := true }

/-- `notifyStressLevelChange(newLevel)` (private): reads the previous
level, invokes the callback when one is registered and the level differs
(the callback runs against the not-yet-updated state `s`), then updates
`currentLevel`.  Returns the state and the calls made. -/
def notifyStressLevelChange (s : MonitorState) (newLevel : StressLevel) :
    MonitorState × List CallbackCall :=
  let previousLevel := s.currentLevel
  let calls :=
    if s.callbackSet ∧ newLevel ≠ previousLevel then
      [{ newLevel := newLevel
         previousLevel := previousLevel
         observedCurrentLevel := s.currentLevel }]
    else []
  ({ s with currentLevel := newLevel }, calls)

/-- `reportStressWithCallback()`.  (`triggerStressRecipe` only logs.) -/
def reportStressWithCallback (s : MonitorState) (now : Nat) :
    MonitorState × List CallbackCall :=
  let s1 := s.ensureSessionStarted now
  let entry : StressEntry := ⟨now, .high, "Manual stress report"⟩
  let s2 := { s1 with entries := s1.entries ++ [entry] }
  let s3 := s2.addEntryToCurrentSession entry
  let s4 := s3.resetSessionTimeout now
  s4.notifyStressLevelChange .high

/-- `reportCalmWithCallback()`. -/
def reportCalmWithCallback (s : MonitorState) (now : Nat) :
    MonitorState × List CallbackCall :=
  let s1 := s.ensureSessionStarted now
  let entry : StressEntry := ⟨now, .low, "Manual calm report"⟩
  let s2 := { s1 with entries := s1.entries ++ [entry] }
  let s3 := s2.addEntryToCurrentSession entry
  let s4 := s3.resetSessionTimeout now
  s4.notifyStressLevelChange .low

end MonitorState

/-- One externally triggered step of the tracker, at absolute time `t`.
`timerFire` is the inactivity timeout firing: it is only enabled when a
timeout is pending, fires at its scheduled time, and runs the
`endCurrentSession` callback passed to `setTimeout`. -/
inductive Step : MonitorState → Nat → MonitorState → Prop where
  | reportStress (s : MonitorState) (t : Nat) :
      Step s t (s.reportStress t)
  | reportCalm (s : MonitorState) (t : Nat) :
      Step s t (s.reportCalm t)
  | reportStressWithCallback (s : MonitorState) (t : Nat) :
      Step s t (s.reportStressWithCallback t).1
  | reportCalmWithCallback (s : MonitorState) (t : Nat) :
      Step s t (s.reportCalmWithCallback t).1
  | updateFromHardware (s : MonitorState) (t : Nat) (gsrValue : Int) :
      Step s t (s.updateFromHardware t gsrValue)
  | startCodingSession (s : MonitorState) (t : Nat) :
      Step s t (s.startCodingSession t)
  | endCodingSession (s : MonitorState) (t : Nat) :
      Step s t (s.endCodingSession t)
  | clearHistory (s : MonitorState) (t : Nat) :
      Step s t (s.clearHistory t)
  | setStressLevelChangeCallback (s : MonitorState) (t : Nat) :
      Step s t s.setStressLevelChangeCallback
  | timerFire (s : MonitorState) (t : Nat) (h : s.sessionTimeout = some t) :
      Step s t (s.endCurrentSession t)

/-- Reachability from a fresh monitor with nondecreasing step times;
`Reachable t s` means `s` is reached and the last step happened at or
before time `t`. -/
inductive Reachable : Nat → MonitorState → Prop where
  | init (t : Nat) : Reachable t initialState
  | step {t₁ t₂ : Nat} {s₁ s₂ : MonitorState} :
      Reachable t₁ s₁ → t₁ ≤ t₂ → Step s₁ t₂ s₂ → Reachable t₂ s₂

/-! ### Basic list lemmas -/

theorem lt_length_of_getElem?_some {α : Type} {l : List α} {j : Nat} {x : α}
    (h : l[j]? = some x) : j < l.length := by
  by_contra hc
  rw [List.getElem?_eq_none_iff.mpr (Nat.le_of_not_lt hc)] at h
  exact Option.noConfusion h

namespace MonitorState

/-- A record update that writes the value the field already has is the
identity. -/
theorem set_timeout_none_eq (s : MonitorState) (h : s.sessionTimeout = none) :
    { s with sessionTimeout := none } = s := by
  cases s
  simp_all

/-- The current session exists and is active. -/
def hasActiveCurrent (s : MonitorState) : Prop :=
  ∃ i sess, s.currentSession = some i ∧ s.arena[i]? = some sess ∧ sess.isActive = true

/-! ### Characterizations of the private helpers -/

/-- `endCurrentSession` either closes an active current session (first
disjunct) or, when there is none, only clears the timeout. -/
theorem endCurrentSession_eq (s : MonitorState) (now : Nat) :
    (∃ i sess, s.currentSession = some i ∧ s.arena[i]? = some sess ∧ sess.isActive = true ∧
        s.endCurrentSession now = { s with
          arena := s.arena.set i { sess with
            endTime := some now
            duration := some (jsRound (now - sess.startTime) (1000 * 60))
            isActive := false }
          sessionTimeout := none }) ∨
    (¬ s.hasActiveCurrent ∧ s.endCurrentSession now = { s with sessionTimeout := none }) := by
  rcases hc : s.currentSession with _ | i
  · right
    refine ⟨?_, by simp [endCurrentSession, hc]⟩
    rintro ⟨i, sess, hi, -, -⟩
    simp [hc] at hi
  · rcases ha : s.arena[i]? with _ | sess
    · right
      refine ⟨?_, by simp [endCurrentSession, hc, ha]⟩
      rintro ⟨j, sess, hj, hja, -⟩
      rw [hc] at hj
      cases hj
      simp [ha] at hja
    · by_cases hact : sess.isActive = true
      · left
        exact ⟨i, sess, rfl, ha, hact, by simp [endCurrentSession, hc, ha, hact]⟩
      · right
        refine ⟨?_, by simp [endCurrentSession, hc, ha, hact]⟩
        rintro ⟨j, sess2, hj, hja, hja2⟩
        rw [hc] at hj
        cases hj
        rw [ha] at hja
        cases hja
        exact hact hja2

/-- `ensureSessionStarted` keeps the state when the current session is
active, and otherwise starts a new session. -/
theorem ensureSessionStarted_eq (s : MonitorState) (now : Nat) :
    (s.hasActiveCurrent ∧ s.ensureSessionStarted now = s) ∨
    (¬ s.hasActiveCurrent ∧ s.ensureSessionStarted now = s.startNewSession now) := by
  rcases hc : s.currentSession with _ | i
  · right
    refine ⟨?_, by simp [ensureSessionStarted, getCurrentSession, hc]⟩
    rintro ⟨i, sess, hi, -, -⟩
    simp [hc] at hi
  · rcases ha : s.arena[i]? with _ | sess
    · right
      refine ⟨?_, by simp [ensureSessionStarted, getCurrentSession, sessionAt, hc, ha]⟩
      rintro ⟨j, sess, hj, hja, -⟩
      rw [hc] at hj
      cases hj
      simp [ha] at hja
    · by_cases hact : sess.isActive = true
      · left
        exact ⟨⟨i, sess, hc, ha, hact⟩,
          by simp [ensureSessionStarted, getCurrentSession, sessionAt, hc, ha, hact]⟩
      · right
        refine ⟨?_, by simp [ensureSessionStarted, getCurrentSession, sessionAt, hc, ha, hact]⟩
        rintro ⟨j, sess2, hj, hja, hja2⟩
        rw [hc] at hj
        cases hj
        rw [ha] at hja
        cases hja
        exact hact hja2

/-- `addEntryToCurrentSession` appends to the active current session and
is the identity otherwise. -/
theorem addEntryToCurrentSession_eq (s : MonitorState) (entry : StressEntry) :
    (∃ i sess, s.currentSession = some i ∧ s.arena[i]? = some sess ∧ sess.isActive = true ∧
        s.addEntryToCurrentSession entry = { s with arena := s.arena.set i { sess with stressEvents := sess.stressEvents ++ [entry] } }) ∨
    (¬ s.hasActiveCurrent ∧ s.addEntryToCurrentSession entry = s) := by
  rcases hc : s.currentSession with _ | i
  · right
    refine ⟨?_, by simp [addEntryToCurrentSession, hc]⟩
    rintro ⟨i, sess, hi, -, -⟩
    simp [hc] at hi
  · rcases ha : s.arena[i]? with _ | sess
    · right
      refine ⟨?_, by simp [addEntryToCurrentSession, hc, ha]⟩
      rintro ⟨j, sess, hj, hja, -⟩
      rw [hc] at hj
      cases hj
      simp [ha] at hja
    · by_cases hact : sess.isActive = true
      · left
        exact ⟨i, sess, rfl, ha, hact, by simp [addEntryToCurrentSession, hc, ha, hact]⟩
      · right
        refine ⟨?_, by simp [addEntryToCurrentSession, hc, ha, hact]⟩
        rintro ⟨j, sess2, hj, hja, hja2⟩
        rw [hc] at hj
        cases hj
        rw [ha] at hja
        cases hja
        exact hact hja2

end MonitorState

/-! ### The state invariant -/

namespace MonitorState

/-- Invariant maintained by every tracker operation: the current session
is the most recently created arena entry; `sessions` holds valid,
duplicate-free arena indices; only the current session can be active;
active sessions have no duration yet, closed ones have duration and end
time; a pending timeout implies an active current session. -/
structure Inv (s : MonitorState) : Prop where
  curLast : ∀ c : Nat, s.currentSession = some c → c + 1 = s.arena.length
  noneEmpty : s.currentSession = none → s.arena = []
  sessIdx : ∀ i ∈ s.sessions, i < s.arena.length
  sessNodup : s.sessions.Nodup
  activeIsCur : ∀ (i : Nat) (sess : CodingSession), s.arena[i]? = some sess →
    sess.isActive = true → s.currentSession = some i
  activeFresh : ∀ (i : Nat) (sess : CodingSession), s.arena[i]? = some sess →
    sess.isActive = true → sess.duration = none
  inactiveClosed : ∀ (i : Nat) (sess : CodingSession), s.arena[i]? = some sess →
    sess.isActive = false → (∃ d, sess.duration = some d) ∧ (∃ e, sess.endTime = some e)
  timeoutActive : ∀ d : Nat, s.sessionTimeout = some d → s.hasActiveCurrent

theorem Inv.initial : Inv initialState := by
  constructor <;> simp [initialState, hasActiveCurrent]

theorem Inv.endCurrentSession {s : MonitorState} (h : Inv s) (now : Nat) :
    Inv (s.endCurrentSession now) := by
  rcases endCurrentSession_eq s now with ⟨i, sess, hc, ha, hact, heq⟩ | ⟨-, heq⟩
  · rw [heq]
    have hilen : i < s.arena.length := lt_length_of_getElem?_some ha
    refine ⟨?_, ?_, ?_, ?_, ?_, ?_, ?_, ?_⟩
    · intro c hcc
      rw [List.length_set]
      exact h.curLast c hcc
    · intro hnone
      rw [hc] at hnone
      exact Option.noConfusion hnone
    · intro j hj
      rw [List.length_set]
      exact h.sessIdx j hj
    · exact h.sessNodup
    · intro j sess2 hj hact2
      by_cases hij : i = j
      · subst hij
        rw [List.getElem?_set_self hilen] at hj
        cases hj
        simp at hact2
      · rw [List.getElem?_set_ne hij] at hj
        exact h.activeIsCur j sess2 hj hact2
    · intro j sess2 hj hact2
      by_cases hij : i = j
      · subst hij
        rw [List.getElem?_set_self hilen] at hj
        cases hj
        simp at hact2
      · rw [List.getElem?_set_ne hij] at hj
        exact h.activeFresh j sess2 hj hact2
    · intro j sess2 hj hact2
      by_cases hij : i = j
      · subst hij
        rw [List.getElem?_set_self hilen] at hj
        cases hj
        exact ⟨⟨_, rfl⟩, ⟨_, rfl⟩⟩
      · rw [List.getElem?_set_ne hij] at hj
        exact h.inactiveClosed j sess2 hj hact2
    · intro d hd
      exact Option.noConfusion hd
  · rw [heq]
    refine ⟨h.curLast, h.noneEmpty, h.sessIdx, h.sessNodup, h.activeIsCur,
      h.activeFresh, h.inactiveClosed, ?_⟩
    intro d hd
    exact Option.noConfusion hd

/-- After `endCurrentSession` no session in the arena is active (under the
invariant: only the current one could be active, and it was closed). -/
theorem endCurrentSession_no_active {s : MonitorState} (h : Inv s) (now : Nat) :
    ∀ (j : Nat) (sess : CodingSession),
      (s.endCurrentSession now).arena[j]? = some sess → sess.isActive = false := by
  intro j sess2 hj
  rcases endCurrentSession_eq s now with ⟨i, sess, hc, ha, hact, heq⟩ | ⟨hna, heq⟩
  · rw [heq] at hj
    have hilen : i < s.arena.length := lt_length_of_getElem?_some ha
    by_cases hij : i = j
    · subst hij
      rw [List.getElem?_set_self hilen] at hj
      cases hj
      rfl
    · rw [List.getElem?_set_ne hij] at hj
      by_contra hq
      have hq2 : sess2.isActive = true := by
        cases hb : sess2.isActive
        · exact absurd hb hq
        · rfl
      have := h.activeIsCur j sess2 hj hq2
      rw [hc] at this
      cases this
      exact hij rfl
  · rw [heq] at hj
    by_contra hq
    have hq2 : sess2.isActive = true := by
      cases hb : sess2.isActive
      · exact absurd hb hq
      · rfl
    exact hna ⟨j, sess2, h.activeIsCur j sess2 hj hq2, hj, hq2⟩

theorem endCurrentSession_fields (s : MonitorState) (now : Nat) :
    (s.endCurrentSession now).entries = s.entries ∧
    (s.endCurrentSession now).currentLevel = s.currentLevel ∧
    (s.endCurrentSession now).sessions = s.sessions ∧
    (s.endCurrentSession now).currentSession = s.currentSession ∧
    (s.endCurrentSession now).callbackSet = s.callbackSet ∧
    (s.endCurrentSession now).arena.length = s.arena.length ∧
    (s.endCurrentSession now).sessionTimeout = none := by
  rcases endCurrentSession_eq s now with ⟨i, sess, hc, ha, hact, heq⟩ | ⟨-, heq⟩ <;>
    rw [heq] <;> simp

end MonitorState

namespace MonitorState

/-! ### Invariant preservation through every operation -/

theorem hasActiveCurrent_of_eq {s s2 : MonitorState}
    (hc : s2.currentSession = s.currentSession) (ha : s2.arena = s.arena)
    (h : s.hasActiveCurrent) : s2.hasActiveCurrent := by
  obtain ⟨i, sess, h1, h2, h3⟩ := h
  refine ⟨i, sess, ?_, ?_, h3⟩
  · rw [hc, h1]
  · rw [ha]
    exact h2

/-- The invariant only concerns `arena`, `sessions`, `currentSession` and
`sessionTimeout`; states equal on those fields share it. -/
theorem Inv.congr {s s2 : MonitorState} (h : Inv s)
    (ha : s2.arena = s.arena) (hs : s2.sessions = s.sessions)
    (hc : s2.currentSession = s.currentSession)
    (ht : s2.sessionTimeout = s.sessionTimeout) : Inv s2 := by
  constructor
  · intro c hcc
    rw [hc] at hcc
    rw [ha]
    exact h.curLast c hcc
  · intro hn
    rw [hc] at hn
    rw [ha]
    exact h.noneEmpty hn
  · intro i hi
    rw [hs] at hi
    rw [ha]
    exact h.sessIdx i hi
  · rw [hs]
    exact h.sessNodup
  · intro i sess hia hact2
    rw [ha] at hia
    rw [hc]
    exact h.activeIsCur i sess hia hact2
  · intro i sess hia hact2
    rw [ha] at hia
    exact h.activeFresh i sess hia hact2
  · intro i sess hia hact2
    rw [ha] at hia
    exact h.inactiveClosed i sess hia hact2
  · intro d hd
    rw [ht] at hd
    exact hasActiveCurrent_of_eq hc ha (h.timeoutActive d hd)

theorem startNewSession_eq (s : MonitorState) (now : Nat) :
    s.startNewSession now = { s.endCurrentSession now with
      arena := (s.endCurrentSession now).arena ++ [⟨now, none, none, [], true⟩]
      currentSession := some (s.endCurrentSession now).arena.length
      sessions := (s.endCurrentSession now).sessions ++
        [(s.endCurrentSession now).arena.length] } := rfl

theorem startNewSession_hasActive (s : MonitorState) (now : Nat) :
    (s.startNewSession now).hasActiveCurrent := by
  rw [startNewSession_eq]
  exact ⟨(s.endCurrentSession now).arena.length, ⟨now, none, none, [], true⟩, rfl,
    List.getElem?_concat_length _ _, rfl⟩

theorem Inv.startNewSession {s : MonitorState} (h : Inv s) (now : Nat) :
    Inv (s.startNewSession now) := by
  have h1 : Inv (s.endCurrentSession now) := h.endCurrentSession now
  have hna := endCurrentSession_no_active h now
  have hto : (s.endCurrentSession now).sessionTimeout = none :=
    (endCurrentSession_fields s now).2.2.2.2.2.2
  rw [startNewSession_eq]
  constructor
  · intro c hcc
    simp only [Option.some.injEq] at hcc
    simp [← hcc]
  · intro hn
    simp at hn
  · intro i hi
    simp only [List.mem_append, List.mem_singleton] at hi
    simp only [List.length_append, List.length_singleton]
    rcases hi with hi | hi
    · exact Nat.lt_succ_of_lt (h1.sessIdx i hi)
    · subst hi
      exact Nat.lt_succ_self _
  · simp only [List.nodup_append, List.nodup_singleton, List.disjoint_singleton]
    refine ⟨h1.sessNodup, trivial, ?_⟩
    intro hmem
    exact absurd (h1.sessIdx _ hmem) (Nat.lt_irrefl _)
  · intro j sess hj hact2
    rcases Nat.lt_trichotomy j (s.endCurrentSession now).arena.length with hlt | heq | hgt
    · rw [List.getElem?_append_left hlt] at hj
      rw [hna j sess hj] at hact2
      exact Bool.noConfusion hact2
    · subst heq
      rfl
    · rw [List.getElem?_eq_none_iff.mpr (by simp; omega)] at hj
      exact Option.noConfusion hj
  · intro j sess hj hact2
    rcases Nat.lt_trichotomy j (s.endCurrentSession now).arena.length with hlt | heq | hgt
    · rw [List.getElem?_append_left hlt] at hj
      rw [hna j sess hj] at hact2
      exact Bool.noConfusion hact2
    · subst heq
      rw [List.getElem?_concat_length] at hj
      cases hj
      rfl
    · rw [List.getElem?_eq_none_iff.mpr (by simp; omega)] at hj
      exact Option.noConfusion hj
  · intro j sess hj hact2
    rcases Nat.lt_trichotomy j (s.endCurrentSession now).arena.length with hlt | heq | hgt
    · rw [List.getElem?_append_left hlt] at hj
      exact h1.inactiveClosed j sess hj hact2
    · subst heq
      rw [List.getElem?_concat_length] at hj
      cases hj
      exact Bool.noConfusion hact2
    · rw [List.getElem?_eq_none_iff.mpr (by simp; omega)] at hj
      exact Option.noConfusion hj
  · intro d hd
    have hd2 : (s.endCurrentSession now).sessionTimeout = some d := hd
    rw [hto] at hd2
    exact Option.noConfusion hd2

theorem Inv.ensureSessionStarted {s : MonitorState} (h : Inv s) (now : Nat) :
    Inv (s.ensureSessionStarted now) := by
  rcases ensureSessionStarted_eq s now with ⟨-, heq⟩ | ⟨-, heq⟩ <;> rw [heq]
  · exact h
  · exact h.startNewSession now

theorem ensureSessionStarted_hasActive (s : MonitorState) (now : Nat) :
    (s.ensureSessionStarted now).hasActiveCurrent := by
  rcases ensureSessionStarted_eq s now with ⟨hact, heq⟩ | ⟨-, heq⟩ <;> rw [heq]
  · exact hact
  · exact startNewSession_hasActive s now

theorem Inv.addEntryToCurrentSession {s : MonitorState} (h : Inv s) (entry : StressEntry) :
    Inv (s.addEntryToCurrentSession entry) := by
  rcases addEntryToCurrentSession_eq s entry with ⟨i, sess, hc, ha, hact, heq⟩ | ⟨-, heq⟩
  · rw [heq]
    have hilen : i < s.arena.length := lt_length_of_getElem?_some ha
    constructor
    · intro c hcc
      rw [List.length_set]
      exact h.curLast c hcc
    · intro hn
      rw [hc] at hn
      exact Option.noConfusion hn
    · intro j hj
      rw [List.length_set]
      exact h.sessIdx j hj
    · exact h.sessNodup
    · intro j sess2 hj hact2
      by_cases hij : i = j
      · subst hij
        exact hc
      · rw [List.getElem?_set_ne hij] at hj
        exact h.activeIsCur j sess2 hj hact2
    · intro j sess2 hj hact2
      by_cases hij : i = j
      · subst hij
        rw [List.getElem?_set_self hilen] at hj
        cases hj
        exact h.activeFresh i sess ha hact
      · rw [List.getElem?_set_ne hij] at hj
        exact h.activeFresh j sess2 hj hact2
    · intro j sess2 hj hact2
      by_cases hij : i = j
      · subst hij
        rw [List.getElem?_set_self hilen] at hj
        cases hj
        rw [hact] at hact2
        exact Bool.noConfusion hact2
      · rw [List.getElem?_set_ne hij] at hj
        exact h.inactiveClosed j sess2 hj hact2
    · intro d hd
      exact ⟨i, { sess with stressEvents := sess.stressEvents ++ [entry] }, hc,
        List.getElem?_set_self hilen, hact⟩
  · rw [heq]
    exact h

theorem addEntryToCurrentSession_hasActive {s : MonitorState}
    (h : s.hasActiveCurrent) (entry : StressEntry) :
    (s.addEntryToCurrentSession entry).hasActiveCurrent := by
  rcases addEntryToCurrentSession_eq s entry with ⟨i, sess, hc, ha, hact, heq⟩ | ⟨-, heq⟩ <;>
    rw [heq]
  · exact ⟨i, { sess with stressEvents := sess.stressEvents ++ [entry] }, hc,
      List.getElem?_set_self (lt_length_of_getElem?_some ha), hact⟩
  · exact h

theorem Inv.resetSessionTimeout {s : MonitorState} (h : Inv s)
    (hact : s.hasActiveCurrent) (now : Nat) : Inv (s.resetSessionTimeout now) :=
  ⟨h.curLast, h.noneEmpty, h.sessIdx, h.sessNodup, h.activeIsCur, h.activeFresh,
    h.inactiveClosed, fun _ _ => hasActiveCurrent_of_eq rfl rfl hact⟩

end MonitorState

namespace MonitorState

/-! ### Unfolding equations for the public operations -/

theorem reportStress_def (s : MonitorState) (now : Nat) :
    s.reportStress now =
      (({ s.ensureSessionStarted now with
          currentLevel := StressLevel.high
          entries := (s.ensureSessionStarted now).entries ++
            [(⟨now, .high, "Manual stress report"⟩ : StressEntry)] }).addEntryToCurrentSession
        (⟨now, .high, "Manual stress report"⟩ : StressEntry)).resetSessionTimeout now := rfl

theorem reportCalm_def (s : MonitorState) (now : Nat) :
    s.reportCalm now =
      (({ s.ensureSessionStarted now with
          currentLevel := StressLevel.low
          entries := (s.ensureSessionStarted now).entries ++
            [(⟨now, .low, "Manual calm report"⟩ : StressEntry)] }).addEntryToCurrentSession
        (⟨now, .low, "Manual calm report"⟩ : StressEntry)).resetSessionTimeout now := rfl

/-- The stress level `updateFromHardware` derives from a GSR reading. -/
def gsrLevel (gsrValue : Int) : StressLevel :=
  if gsrValue > 80 then .high else if gsrValue > 40 then .medium else .low

theorem updateFromHardware_def (s : MonitorState) (now : Nat) (gsrValue : Int) :
    s.updateFromHardware now gsrValue =
      (({ s.ensureSessionStarted now with
          currentLevel := gsrLevel gsrValue
          entries := (s.ensureSessionStarted now).entries ++
            [(⟨now, gsrLevel gsrValue, "GSR: " ++ toString gsrValue⟩ : StressEntry)] }).addEntryToCurrentSession
        (⟨now, gsrLevel gsrValue, "GSR: " ++ toString gsrValue⟩ : StressEntry)).resetSessionTimeout now := rfl

theorem notifyStressLevelChange_fst (s : MonitorState) (lv : StressLevel) :
    (s.notifyStressLevelChange lv).1 = { s with currentLevel := lv } := rfl

theorem reportStressWithCallback_def (s : MonitorState) (now : Nat) :
    s.reportStressWithCallback now =
      ((({ s.ensureSessionStarted now with
          entries := (s.ensureSessionStarted now).entries ++
            [(⟨now, .high, "Manual stress report"⟩ : StressEntry)] }).addEntryToCurrentSession
        (⟨now, .high, "Manual stress report"⟩ : StressEntry)).resetSessionTimeout now).notifyStressLevelChange
          StressLevel.high := rfl

theorem reportCalmWithCallback_def (s : MonitorState) (now : Nat) :
    s.reportCalmWithCallback now =
      ((({ s.ensureSessionStarted now with
          entries := (s.ensureSessionStarted now).entries ++
            [(⟨now, .low, "Manual calm report"⟩ : StressEntry)] }).addEntryToCurrentSession
        (⟨now, .low, "Manual calm report"⟩ : StressEntry)).resetSessionTimeout now).notifyStressLevelChange
          StressLevel.low := rfl

theorem clearHistory_def (s : MonitorState) (now : Nat) :
    s.clearHistory now =
      { ({ s with entries := [], currentLevel := StressLevel.low }).endCurrentSession now with
        sessions := [] } := rfl

/-! ### Invariant preservation through the public operations -/

theorem Inv.withLevel {u : MonitorState} (h : Inv u) (lv : StressLevel) :
    Inv { u with currentLevel := lv } :=
  h.congr rfl rfl rfl rfl

/-- Invariant preservation for the common body of the report operations
that first set the level: push the entry, attach it, reset the timeout. -/
theorem Inv.reportCore {u : MonitorState} (h : Inv u) (hact : u.hasActiveCurrent)
    (lv : StressLevel) (e : StressEntry) (now : Nat) :
    Inv ((({ u with currentLevel := lv, entries := u.entries ++ [e]
      }).addEntryToCurrentSession e).resetSessionTimeout now) := by
  have h1 : Inv { u with currentLevel := lv, entries := u.entries ++ [e] } :=
    h.congr rfl rfl rfl rfl
  have ha1 : hasActiveCurrent { u with currentLevel := lv, entries := u.entries ++ [e] } :=
    hasActiveCurrent_of_eq rfl rfl hact
  exact Inv.resetSessionTimeout (h1.addEntryToCurrentSession e)
    (addEntryToCurrentSession_hasActive ha1 e) now

/-- Same for the callback-bearing reports, which do not set the level
before notifying. -/
theorem Inv.reportCoreKeepLevel {u : MonitorState} (h : Inv u) (hact : u.hasActiveCurrent)
    (e : StressEntry) (now : Nat) :
    Inv ((({ u with entries := u.entries ++ [e]
      }).addEntryToCurrentSession e).resetSessionTimeout now) := by
  have h1 : Inv { u with entries := u.entries ++ [e] } :=
    h.congr rfl rfl rfl rfl
  have ha1 : hasActiveCurrent { u with entries := u.entries ++ [e] } :=
    hasActiveCurrent_of_eq rfl rfl hact
  exact Inv.resetSessionTimeout (h1.addEntryToCurrentSession e)
    (addEntryToCurrentSession_hasActive ha1 e) now

theorem Inv.reportStress {s : MonitorState} (h : Inv s) (now : Nat) :
    Inv (s.reportStress now) := by
  rw [reportStress_def]
  exact Inv.reportCore (h.ensureSessionStarted now)
    (ensureSessionStarted_hasActive s now) _ _ now

theorem Inv.reportCalm {s : MonitorState} (h : Inv s) (now : Nat) :
    Inv (s.reportCalm now) := by
  rw [reportCalm_def]
  exact Inv.reportCore (h.ensureSessionStarted now)
    (ensureSessionStarted_hasActive s now) _ _ now

theorem Inv.updateFromHardware {s : MonitorState} (h : Inv s) (now : Nat) (gsrValue : Int) :
    Inv (s.updateFromHardware now gsrValue) := by
  rw [updateFromHardware_def]
  exact Inv.reportCore (h.ensureSessionStarted now)
    (ensureSessionStarted_hasActive s now) _ _ now

theorem Inv.reportStressWithCallback {s : MonitorState} (h : Inv s) (now : Nat) :
    Inv (s.reportStressWithCallback now).1 := by
  rw [reportStressWithCallback_def, notifyStressLevelChange_fst]
  exact Inv.withLevel (Inv.reportCoreKeepLevel (h.ensureSessionStarted now)
    (ensureSessionStarted_hasActive s now) _ now) _

theorem Inv.reportCalmWithCallback {s : MonitorState} (h : Inv s) (now : Nat) :
    Inv (s.reportCalmWithCallback now).1 := by
  rw [reportCalmWithCallback_def, notifyStressLevelChange_fst]
  exact Inv.withLevel (Inv.reportCoreKeepLevel (h.ensureSessionStarted now)
    (ensureSessionStarted_hasActive s now) _ now) _

theorem Inv.startCodingSession {s : MonitorState} (h : Inv s) (now : Nat) :
    Inv (s.startCodingSession now) :=
  Inv.resetSessionTimeout (h.startNewSession now) (startNewSession_hasActive s now) now

theorem Inv.endCodingSession {s : MonitorState} (h : Inv s) (now : Nat) :
    Inv (s.endCodingSession now) :=
  h.endCurrentSession now

theorem Inv.clearHistory {s : MonitorState} (h : Inv s) (now : Nat) :
    Inv (s.clearHistory now) := by
  rw [clearHistory_def]
  have hbase : Inv ({ s with entries := [], currentLevel := StressLevel.low }) :=
    h.congr rfl rfl rfl rfl
  have h2 := hbase.endCurrentSession now
  have hto : (({ s with entries := [], currentLevel := StressLevel.low
      }).endCurrentSession now).sessionTimeout = none :=
    (endCurrentSession_fields _ now).2.2.2.2.2.2
  refine ⟨h2.curLast, h2.noneEmpty, ?_, ?_, h2.activeIsCur, h2.activeFresh,
    h2.inactiveClosed, ?_⟩
  · intro i hi
    simp at hi
  · simp
  · intro d hd
    have hd2 : (({ s with entries := [], currentLevel := StressLevel.low
        }).endCurrentSession now).sessionTimeout = some d := hd
    rw [hto] at hd2
    exact Option.noConfusion hd2

theorem Inv.setStressLevelChangeCallback {s : MonitorState} (h : Inv s) :
    Inv s.setStressLevelChangeCallback :=
  h.congr rfl rfl rfl rfl

/-- Every reachable state satisfies the invariant. -/
theorem reachable_inv {t : Nat} {s : MonitorState} (h : Reachable t s) : Inv s := by
  induction h with
  | init t => exact Inv.initial
  | step hr hle hstep ih =>
    cases hstep with
    | reportStress => exact ih.reportStress _
    | reportCalm => exact ih.reportCalm _
    | reportStressWithCallback => exact ih.reportStressWithCallback _
    | reportCalmWithCallback => exact ih.reportCalmWithCallback _
    | updateFromHardware g => exact ih.updateFromHardware _ g
    | startCodingSession => exact ih.startCodingSession _
    | endCodingSession => exact ih.endCodingSession _
    | clearHistory => exact ih.clearHistory _
    | setStressLevelChangeCallback => exact ih.setStressLevelChangeCallback
    | timerFire hto => exact ih.endCurrentSession _

end MonitorState

namespace MonitorState

/-! ### Field-preservation lemmas for the public operations -/

theorem endCodingSession_def (s : MonitorState) (now : Nat) :
    s.endCodingSession now = s.endCurrentSession now := rfl

theorem startCodingSession_def (s : MonitorState) (now : Nat) :
    s.startCodingSession now = (s.startNewSession now).resetSessionTimeout now := rfl

theorem startNewSession_fields (s : MonitorState) (now : Nat) :
    (s.startNewSession now).entries = s.entries ∧
    (s.startNewSession now).currentLevel = s.currentLevel ∧
    (s.startNewSession now).callbackSet = s.callbackSet := by
  rw [startNewSession_eq]
  have h := endCurrentSession_fields s now
  exact ⟨h.1, h.2.1, h.2.2.2.2.1⟩

theorem ensureSessionStarted_fields (s : MonitorState) (now : Nat) :
    (s.ensureSessionStarted now).entries = s.entries ∧
    (s.ensureSessionStarted now).currentLevel = s.currentLevel ∧
    (s.ensureSessionStarted now).callbackSet = s.callbackSet := by
  rcases ensureSessionStarted_eq s now with ⟨-, heq⟩ | ⟨-, heq⟩ <;> rw [heq]
  · exact ⟨rfl, rfl, rfl⟩
  · exact startNewSession_fields s now

theorem addEntryToCurrentSession_fields (s : MonitorState) (entry : StressEntry) :
    (s.addEntryToCurrentSession entry).entries = s.entries ∧
    (s.addEntryToCurrentSession entry).currentLevel = s.currentLevel ∧
    (s.addEntryToCurrentSession entry).callbackSet = s.callbackSet ∧
    (s.addEntryToCurrentSession entry).currentSession = s.currentSession ∧
    (s.addEntryToCurrentSession entry).sessions = s.sessions ∧
    (s.addEntryToCurrentSession entry).sessionTimeout = s.sessionTimeout := by
  rcases addEntryToCurrentSession_eq s entry with ⟨i, sess, hc, ha, hact, heq⟩ | ⟨-, heq⟩ <;>
    rw [heq] <;> exact ⟨rfl, rfl, rfl, rfl, rfl, rfl⟩

theorem notifyStressLevelChange_snd (s : MonitorState) (lv : StressLevel) :
    (s.notifyStressLevelChange lv).2 =
      if s.callbackSet ∧ lv ≠ s.currentLevel then
        [⟨lv, s.currentLevel, s.currentLevel⟩] else [] := rfl

end MonitorState

open MonitorState in
/-- Claim C2: ending an active session whose start time is `t0` at time `t1`
sets its end time to `t1`, stores duration `round((t1 − t0) / 60000)`
minutes and marks it inactive; a second `endCodingSession` afterwards is a
no-op: it returns the state unchanged, so no session field (in particular
the stored duration) changes. -/
theorem C2_endSession_duration_and_idempotence
    (s : MonitorState) (t0 t1 t2 i : Nat) (sess : CodingSession)
    (hc : s.currentSession = some i) (ha : s.arena[i]? = some sess)
    (hact : sess.isActive = true) (hstart : sess.startTime = t0) :
    ((s.endCodingSession t1).getCurrentSession = some { sess with
        endTime := some t1
        duration := some (jsRound (t1 - t0) (1000 * 60))
        isActive := false }) ∧
    (s.endCodingSession t1).endCodingSession t2 = s.endCodingSession t1 := by
  subst hstart
  simp only [endCodingSession_def]
  rcases endCurrentSession_eq s t1 with ⟨j, sess2, hc2, ha2, hact2, heq⟩ | ⟨hna, -⟩
  · rw [hc] at hc2
    cases hc2
    rw [ha] at ha2
    cases ha2
    have hilen : i < s.arena.length := lt_length_of_getElem?_some ha
    constructor
    · rw [heq]
      simp only [getCurrentSession, sessionAt, Option.bind_eq_bind]
      rw [hc]
      simp only [Option.some_bind]
      rw [List.getElem?_set_self hilen]
    · rw [heq]
      rcases endCurrentSession_eq { s with
          arena := s.arena.set i { sess with
            endTime := some t1
            duration := some (jsRound (t1 - sess.startTime) (1000 * 60))
            isActive := false }
          sessionTimeout := none } t2 with ⟨k, sess3, hc3, ha3, hact3, -⟩ | ⟨-, heq2⟩
      · have hc3k : s.currentSession = some k := hc3
        rw [hc] at hc3k
        cases hc3k
        have ha3k : (s.arena.set i { sess with
            endTime := some t1
            duration := some (jsRound (t1 - sess.startTime) (1000 * 60))
            isActive := false })[i]? = some sess3 := ha3
        rw [List.getElem?_set_self hilen] at ha3k
        cases ha3k
        exact Bool.noConfusion hact3
      · rw [heq2]
  · exact absurd ⟨i, sess, hc, ha, hact⟩ hna

open MonitorState in
/-- Witness for C2 on a concrete run: a session started by a report at
time 5 ms, ended at 90005 ms (1.5 minutes, rounding to 2). -/
theorem C2_endSession_witness :
    (((initialState.reportStress 5).endCodingSession 90005).getCurrentSession =
      some { (⟨5, none, none, [⟨5, .high, "Manual stress report"⟩], true⟩ : CodingSession) with
        endTime := some 90005
        duration := some (jsRound (90005 - 5) (1000 * 60))
        isActive := false }) ∧
    ((initialState.reportStress 5).endCodingSession 90005).endCodingSession 100000 =
      (initialState.reportStress 5).endCodingSession 90005 :=
  C2_endSession_duration_and_idempotence (initialState.reportStress 5) 5 90005 100000 0
    ⟨5, none, none, [⟨5, .high, "Manual stress report"⟩], true⟩ rfl rfl rfl rfl

open MonitorState in
/-- Claim C3: with a callback registered, the callback-bearing report path
invokes the callback exactly once with arguments (newLevel, previousLevel)
if and only if the reported level differs from the current level; the call
list records, as `observedCurrentLevel`, the value `getCurrentLevel()`
returns while the callback runs — it equals the previous level, showing the
internal level is updated only after the invocation returns — and the
post-state level is the new one. -/
theorem C3_callback_iff_level_change (s : MonitorState) (now : Nat)
    (hcb : s.callbackSet = true) :
    ((s.reportStressWithCallback now).2 =
        (if s.currentLevel ≠ StressLevel.high then
          [⟨StressLevel.high, s.currentLevel, s.currentLevel⟩] else []) ∧
      (s.reportStressWithCallback now).1.currentLevel = StressLevel.high) ∧
    ((s.reportCalmWithCallback now).2 =
        (if s.currentLevel ≠ StressLevel.low then
          [⟨StressLevel.low, s.currentLevel, s.currentLevel⟩] else []) ∧
      (s.reportCalmWithCallback now).1.currentLevel = StressLevel.low) := by
  have hens := ensureSessionStarted_fields s now
  constructor
  · rw [reportStressWithCallback_def, notifyStressLevelChange_snd,
      notifyStressLevelChange_fst]
    set u : MonitorState := { s.ensureSessionStarted now with
      entries := (s.ensureSessionStarted now).entries ++
        [(⟨now, .high, "Manual stress report"⟩ : StressEntry)] } with hu
    have hl : ((u.addEntryToCurrentSession
        ⟨now, .high, "Manual stress report"⟩).resetSessionTimeout now).currentLevel =
        s.currentLevel := by
      show (u.addEntryToCurrentSession _).currentLevel = s.currentLevel
      rw [(addEntryToCurrentSession_fields u _).2.1]
      show (s.ensureSessionStarted now).currentLevel = s.currentLevel
      exact hens.2.1
    have hcb2 : ((u.addEntryToCurrentSession
        ⟨now, .high, "Manual stress report"⟩).resetSessionTimeout now).callbackSet =
        true := by
      show (u.addEntryToCurrentSession _).callbackSet = true
      rw [(addEntryToCurrentSession_fields u _).2.2.1]
      show (s.ensureSessionStarted now).callbackSet = true
      rw [hens.2.2]
      exact hcb
    rw [hl, hcb2]
    constructor
    · by_cases hne : s.currentLevel = StressLevel.high
      · simp [hne]
      · simp [hne, Ne.symm hne]
    · rfl
  · rw [reportCalmWithCallback_def, notifyStressLevelChange_snd,
      notifyStressLevelChange_fst]
    set u : MonitorState := { s.ensureSessionStarted now with
      entries := (s.ensureSessionStarted now).entries ++
        [(⟨now, .low, "Manual calm report"⟩ : StressEntry)] } with hu
    have hl : ((u.addEntryToCurrentSession
        ⟨now, .low, "Manual calm report"⟩).resetSessionTimeout now).currentLevel =
        s.currentLevel := by
      show (u.addEntryToCurrentSession _).currentLevel = s.currentLevel
      rw [(addEntryToCurrentSession_fields u _).2.1]
      show (s.ensureSessionStarted now).currentLevel = s.currentLevel
      exact hens.2.1
    have hcb2 : ((u.addEntryToCurrentSession
        ⟨now, .low, "Manual calm report"⟩).resetSessionTimeout now).callbackSet =
        true := by
      show (u.addEntryToCurrentSession _).callbackSet = true
      rw [(addEntryToCurrentSession_fields u _).2.2.1]
      show (s.ensureSessionStarted now).callbackSet = true
      rw [hens.2.2]
      exact hcb
    rw [hl, hcb2]
    constructor
    · by_cases hne : s.currentLevel = StressLevel.low
      · simp [hne]
      · simp [hne, Ne.symm hne]
    · rfl

open MonitorState in
/-- Witness for C3: from the initial level (low) with a callback
registered, reporting stress fires the callback once with (high, low),
while the callback observes level low; reporting calm fires nothing. -/
theorem C3_callback_witness :
    (((initialState.setStressLevelChangeCallback).reportStressWithCallback 7).2 =
        (if initialState.setStressLevelChangeCallback.currentLevel ≠ StressLevel.high then
          [⟨StressLevel.high, initialState.setStressLevelChangeCallback.currentLevel,
            initialState.setStressLevelChangeCallback.currentLevel⟩] else []) ∧
      ((initialState.setStressLevelChangeCallback).reportStressWithCallback 7).1.currentLevel =
        StressLevel.high) ∧
    (((initialState.setStressLevelChangeCallback).reportCalmWithCallback 7).2 =
        (if initialState.setStressLevelChangeCallback.currentLevel ≠ StressLevel.low then
          [⟨StressLevel.low, initialState.setStressLevelChangeCallback.currentLevel,
            initialState.setStressLevelChangeCallback.currentLevel⟩] else []) ∧
      ((initialState.setStressLevelChangeCallback).reportCalmWithCallback 7).1.currentLevel =
        StressLevel.low) :=
  C3_callback_iff_level_change initialState.setStressLevelChangeCallback 7 rfl

/-- In a duplicate-free index list, if every hit of `f` satisfying `p`
must be a single fixed index `c`, then `filterMap` yields at most one
element satisfying `p`. -/
theorem countP_filterMap_le_one (c : Nat) {f : Nat → Option CodingSession}
    {p : CodingSession → Bool} (l : List Nat)
    (hp : ∀ i x, f i = some x → p x = true → i = c) :
    l.Nodup → (l.filterMap f).countP p ≤ 1 := by
  induction l with
  | nil =>
    intro
    simp
  | cons a l ih =>
    intro hnd
    rcases hfa : f a with _ | x
    · rw [List.filterMap_cons_none hfa]
      exact ih (List.nodup_cons.mp hnd).2
    · rw [List.filterMap_cons_some hfa]
      rcases hpx : p x with _ | _
      · rw [List.countP_cons_of_neg _ _ (by simp [hpx])]
        exact ih (List.nodup_cons.mp hnd).2
      · have hac : a = c := hp a x hfa hpx
        rw [List.countP_cons_of_pos _ _ hpx]
        have hzero : (l.filterMap f).countP p = 0 := by
          rw [List.countP_eq_zero]
          intro y hy hpy
          rw [List.mem_filterMap] at hy
          obtain ⟨i, hil, hfi⟩ := hy
          have hic : i = c := hp i y hfi hpy
          subst hic
          subst hac
          exact (List.nodup_cons.mp hnd).1 hil
        rw [hzero]

/-- Under the invariant, at most one element of the `sessions` list is
active. -/
theorem MonitorState.active_countP_le_one {s : MonitorState} (hinv : s.Inv) :
    (s.getAllSessions).countP (fun sess => sess.isActive) ≤ 1 := by
  show (s.sessions.filterMap s.sessionAt).countP (fun sess => sess.isActive) ≤ 1
  rcases hcur : s.currentSession with _ | c
  · have hzero : (s.sessions.filterMap s.sessionAt).countP
        (fun sess => sess.isActive) = 0 := by
      rw [List.countP_eq_zero]
      intro a ha hactive
      rw [List.mem_filterMap] at ha
      obtain ⟨i, hil, hfi⟩ := ha
      have hcs := hinv.activeIsCur i a hfi hactive
      rw [hcur] at hcs
      exact Option.noConfusion hcs
    rw [hzero]
    exact Nat.zero_le 1
  · refine countP_filterMap_le_one c s.sessions ?_ hinv.sessNodup
    intro i x hfi hpx
    have hcs := hinv.activeIsCur i x hfi hpx
    rw [hcur] at hcs
    cases hcs
    rfl

open MonitorState in
/-- Claim C1: in every reachable state at most one session in the
`sessions` list is active; in particular `startCodingSession` first closes
every previously existing session, so each pre-existing arena slot is
inactive after it runs and only the newly pushed session can be active. -/
theorem C1_at_most_one_active_session (t : Nat) (s : MonitorState)
    (h : Reachable t s) :
    ((s.getAllSessions).countP (fun sess => sess.isActive) ≤ 1) ∧
    (∀ (u i : Nat) (sess : CodingSession), i < s.arena.length →
      (s.startCodingSession u).arena[i]? = some sess → sess.isActive = false) := by
  have hinv := reachable_inv h
  constructor
  · exact active_countP_le_one hinv
  · intro u i sess hilen hai
    have hlen := (endCurrentSession_fields s u).2.2.2.2.2.1
    have hai2 : ((s.endCurrentSession u).arena ++
        [⟨u, none, none, [], true⟩])[i]? = some sess := hai
    rw [List.getElem?_append_left (by rw [hlen]; exact hilen)] at hai2
    exact endCurrentSession_no_active hinv u i sess hai2

open MonitorState in
/-- Witness for C1 at the reachable state produced by one stress report. -/
theorem C1_witness :
    (((initialState.reportStress 5).getAllSessions).countP
      (fun sess => sess.isActive) ≤ 1) ∧
    (∀ (u i : Nat) (sess : CodingSession),
      i < (initialState.reportStress 5).arena.length →
      ((initialState.reportStress 5).startCodingSession u).arena[i]? = some sess →
      sess.isActive = false) :=
  C1_at_most_one_active_session 5 (initialState.reportStress 5)
    (Reachable.step (Reachable.init 5) (Nat.le_refl 5)
      (Step.reportStress initialState 5))

namespace MonitorState

/-! ### Session statistics, spec side -/

/-- The statistics as the spec phrases them, as a function of the list of
completed durations: rounded mean, count and maximum, zeros when empty. -/
def statsSpec (durations : List Nat) : SessionStats :=
  if durations = [] then ⟨0, 0, 0⟩
  else ⟨jsRound durations.sum durations.length, durations.length,
    durations.foldr max 0⟩

theorem foldl_add_getD (l : List CodingSession) (a : Nat) :
    l.foldl (fun sum sess => sum + sess.duration.getD 0) a
      = a + (l.map (fun sess => sess.duration.getD 0)).sum := by
  induction l generalizing a with
  | nil => simp
  | cons x l ih => simp [ih, Nat.add_assoc]

theorem foldl_max_getD (l : List CodingSession) (a : Nat) :
    l.foldl (fun m sess => max m (sess.duration.getD 0)) a
      = max a ((l.map (fun sess => sess.duration.getD 0)).foldr max 0) := by
  induction l generalizing a with
  | nil => simp
  | cons x l ih => simp [ih, Nat.max_assoc]

theorem getSessionStats_eq (s : MonitorState) :
    s.getSessionStats = statsSpec (((s.getAllSessions).filter
      (fun sess => durTruthy sess.duration)).map
        (fun sess => sess.duration.getD 0)) := by
  unfold getSessionStats statsSpec
  set cs := (s.getAllSessions).filter (fun sess => durTruthy sess.duration) with hcs
  by_cases hnil : cs = []
  · simp [hnil]
  · have hlen : ¬ cs.length = 0 := by
      simpa [List.length_eq_zero] using hnil
    rw [if_neg hlen, if_neg (by simpa using hnil)]
    have hsum := foldl_add_getD cs 0
    rw [Nat.zero_add] at hsum
    have hmax := foldl_max_getD cs 0
    rw [Nat.zero_max] at hmax
    rw [hsum, hmax, List.length_map]

end MonitorState

/-- A concrete run with three completed sessions of 10, 20 and 30
minutes (sessions are closed implicitly by the next start, and the last
one explicitly). -/
def statsDemo : MonitorState :=
  (((initialState.startCodingSession 0).startCodingSession
    600000).startCodingSession 1800000).endCodingSession 3600000

open MonitorState in
/-- Claim C4: `getSessionStats` is computed over exactly the sessions with
a positive stored duration, returning the rounded mean, the count and the
maximum of those durations, and zeros when there is no such session; on no
completed session it returns ⟨0, 0, 0⟩ and on completed durations
[10, 20, 30] it returns ⟨20, 3, 30⟩. -/
theorem C4_getSessionStats (s : MonitorState) :
    (s.getSessionStats = statsSpec (((s.getAllSessions).filter
      (fun sess => decide (0 < sess.duration.getD 0))).map
        (fun sess => sess.duration.getD 0))) ∧
    initialState.getSessionStats = ⟨0, 0, 0⟩ ∧
    statsDemo.getSessionStats = ⟨20, 3, 30⟩ := by
  refine ⟨?_, by decide, by decide⟩
  have hfilter : (s.getAllSessions).filter
        (fun sess => decide (0 < sess.duration.getD 0))
      = (s.getAllSessions).filter (fun sess => durTruthy sess.duration) := by
    refine List.filter_congr ?_
    intro sess _
    rcases hd : sess.duration with _ | d
    · simp [durTruthy]
    · rcases d with _ | d <;> simp [durTruthy]
  rw [hfilter]
  exact getSessionStats_eq s

namespace MonitorState

/-! ### Today's total coding time -/

theorem countP_filter_le (p q : CodingSession → Bool) (l : List CodingSession) :
    (l.filter q).countP p ≤ l.countP p := by
  induction l with
  | nil => simp
  | cons x l ih =>
    by_cases hq : q x = true
    · rw [List.filter_cons_of_pos hq, List.countP_cons, List.countP_cons]
      omega
    · rw [List.filter_cons_of_neg (by simpa using hq), List.countP_cons]
      omega

/-- The loop of `getTotalCodingTimeToday`, split as the spec describes it:
the sum of the closed sessions' stored durations plus the live duration
when an active session occurs in the list.  Uses that closed sessions
carry a stored duration, active ones none, and at most one is active. -/
theorem total_fold_split (live : Nat) (L : List CodingSession) (acc : Nat)
    (h1 : ∀ sess ∈ L, sess.isActive = false → ∃ d, sess.duration = some d)
    (h2 : ∀ sess ∈ L, sess.isActive = true → sess.duration = none)
    (h3 : L.countP (fun sess => sess.isActive) ≤ 1) :
    L.foldl (fun total session =>
      if durTruthy session.duration then total + session.duration.getD 0
      else if session.isActive then total + live
      else total) acc
    = acc + ((L.filter (fun sess => !sess.isActive)).map
        (fun sess => sess.duration.getD 0)).sum
      + (if L.any (fun sess => sess.isActive) then live else 0) := by
  induction L generalizing acc with
  | nil => simp
  | cons x L ih =>
    have h1t : ∀ sess ∈ L, sess.isActive = false → ∃ d, sess.duration = some d :=
      fun sess hm => h1 sess (List.mem_cons_of_mem _ hm)
    have h2t : ∀ sess ∈ L, sess.isActive = true → sess.duration = none :=
      fun sess hm => h2 sess (List.mem_cons_of_mem _ hm)
    rw [List.foldl_cons]
    cases hx : x.isActive
    · obtain ⟨d, hd⟩ := h1 x (List.mem_cons_self x L) hx
      have h3t : L.countP (fun sess => sess.isActive) ≤ 1 := by
        rw [List.countP_cons] at h3
        omega
      rw [hd]
      rcases d with _ | d
      · have hstep : (if durTruthy (some 0) = true then acc + (some 0).getD 0
            else if false = true then acc + live else acc) = acc := by
          simp [durTruthy]
        rw [hstep, ih acc h1t h2t h3t]
        simp [hx, hd, durTruthy]
      · have hstep : (if durTruthy (some (d + 1)) = true then acc + (some (d + 1)).getD 0
            else if false = true then acc + live else acc) = acc + (d + 1) := by
          simp [durTruthy]
        rw [hstep, ih (acc + (d + 1)) h1t h2t h3t]
        simp [hx, hd, durTruthy]
        rw [Nat.add_assoc]
    · have hdur := h2 x (List.mem_cons_self x L) hx
      have hzero : L.countP (fun sess => sess.isActive) = 0 := by
        rw [List.countP_cons] at h3
        simp [hx] at h3
        rw [List.countP_eq_zero]
        intro sess hm
        simp [h3 sess hm]
      have hnoact : L.any (fun sess => sess.isActive) = false := by
        rw [List.any_eq_false]
        intro sess hm hactive
        exact List.countP_eq_zero.mp hzero sess hm hactive
      have hallin : L.filter (fun sess => !sess.isActive) = L := by
        rw [List.filter_eq_self]
        intro sess hm
        have hne := List.countP_eq_zero.mp hzero sess hm
        simp at hne
        simp [hne]
      rw [hdur]
      have hstep : (if durTruthy none = true then acc + (none : Option Nat).getD 0
          else if true = true then acc + live else acc) = acc + live := by
        simp [durTruthy]
      rw [hstep, ih (acc + live) h1t h2t (by omega)]
      rw [hnoact]
      simp [hx, hallin]
      omega

theorem mem_getAllSessions {s : MonitorState} {sess : CodingSession}
    (hm : sess ∈ s.getAllSessions) : ∃ i : Nat, s.arena[i]? = some sess := by
  unfold getAllSessions sessionAt at hm
  rw [List.mem_filterMap] at hm
  obtain ⟨i, -, hfi⟩ := hm
  exact ⟨i, hfi⟩

theorem mem_getTodaysSessions {s : MonitorState} {midnight : Nat} {sess : CodingSession}
    (hm : sess ∈ s.getTodaysSessions midnight) : ∃ i : Nat, s.arena[i]? = some sess := by
  unfold getTodaysSessions at hm
  exact mem_getAllSessions (List.mem_filter.mp hm).1

end MonitorState

open MonitorState in
/-- Claim C5: in every reachable state, `getTotalCodingTimeToday` equals
the sum of the stored durations of today's closed sessions plus, when
today's list contains the active session, the live recomputed
current-session duration. -/
theorem C5_total_coding_time_today (t now midnight : Nat) (s : MonitorState)
    (h : Reachable t s) :
    s.getTotalCodingTimeToday now midnight =
      (((s.getTodaysSessions midnight).filter (fun sess => !sess.isActive)).map
        (fun sess => sess.duration.getD 0)).sum
      + (if (s.getTodaysSessions midnight).any (fun sess => sess.isActive) then
          s.getCurrentSessionDuration now else 0) := by
  have hinv := reachable_inv h
  have h1 : ∀ sess ∈ s.getTodaysSessions midnight, sess.isActive = false →
      ∃ d, sess.duration = some d := by
    intro sess hm hina
    obtain ⟨i, hi⟩ := mem_getTodaysSessions hm
    exact (hinv.inactiveClosed i sess hi hina).1
  have h2 : ∀ sess ∈ s.getTodaysSessions midnight, sess.isActive = true →
      sess.duration = none := by
    intro sess hm hact
    obtain ⟨i, hi⟩ := mem_getTodaysSessions hm
    exact hinv.activeFresh i sess hi hact
  have h3 : (s.getTodaysSessions midnight).countP (fun sess => sess.isActive) ≤ 1 := by
    refine Nat.le_trans ?_ (active_countP_le_one hinv)
    exact countP_filter_le _ _ _
  have hsplit := total_fold_split (s.getCurrentSessionDuration now)
    (s.getTodaysSessions midnight) 0 h1 h2 h3
  rw [Nat.zero_add] at hsplit
  exact hsplit

/-- A run with one 15-minute session closed today and one session opened
15 minutes in, still active 5 minutes later. -/
def totalDemo : MonitorState :=
  ((initialState.startCodingSession 0).endCodingSession 900000).startCodingSession 900000

open MonitorState in
/-- Witness for C5: with the closed 15-minute session and the active
session 5 elapsed minutes old, the total is 15 + 5 = 20 minutes. -/
theorem C5_total_coding_time_witness :
    (totalDemo.getTotalCodingTimeToday 1200000 0 =
      (((totalDemo.getTodaysSessions 0).filter (fun sess => !sess.isActive)).map
        (fun sess => sess.duration.getD 0)).sum
      + (if (totalDemo.getTodaysSessions 0).any (fun sess => sess.isActive) then
          totalDemo.getCurrentSessionDuration 1200000 else 0)) ∧
    totalDemo.getTotalCodingTimeToday 1200000 0 = 20 :=
  ⟨C5_total_coding_time_today 900000 1200000 0 totalDemo
    (Reachable.step (Reachable.step (Reachable.step (Reachable.init 0)
      (Nat.le_refl 0) (Step.startCodingSession initialState 0))
      (Nat.zero_le 900000) (Step.endCodingSession _ 900000))
      (Nat.le_refl 900000) (Step.startCodingSession _ 900000)),
    by decide⟩

namespace MonitorState

/-- Closing an active current session: the current session reference
afterwards holds the closed record. -/
theorem endCurrentSession_close {s : MonitorState} {i : Nat} {sess : CodingSession}
    (hc : s.currentSession = some i) (ha : s.arena[i]? = some sess)
    (hact : sess.isActive = true) (now : Nat) :
    (s.endCurrentSession now).getCurrentSession = some { sess with
      endTime := some now
      duration := some (jsRound (now - sess.startTime) (1000 * 60))
      isActive := false } := by
  rcases endCurrentSession_eq s now with ⟨j, sess2, hc2, ha2, hact2, heq⟩ | ⟨hna, -⟩
  · rw [hc] at hc2
    cases hc2
    rw [ha] at ha2
    cases ha2
    rw [heq]
    simp only [getCurrentSession, sessionAt, Option.bind_eq_bind]
    rw [hc]
    simp only [Option.some_bind]
    rw [List.getElem?_set_self (lt_length_of_getElem?_some ha)]
  · exact absurd ⟨i, sess, hc, ha, hact⟩ hna

end MonitorState

open MonitorState in
/-- Claim C6: every report and `startCodingSession` replace the pending
timeout with a fresh one scheduled 30 minutes (30 · 60 · 1000 ms) after the
call — the single `Option` slot models clearTimeout-then-setTimeout, so at
most one timeout is ever outstanding; and when a pending timeout fires
(`Step.timerFire`, enabled only at the scheduled instant), the state
becomes exactly `endCodingSession`'s result: the active current session
gets its end time and computed duration and `isActive` becomes false. -/
theorem C6_inactivity_timeout (t d : Nat) (s : MonitorState) (h : Reachable t s) :
    ((s.reportStress d).sessionTimeout = some (d + 30 * 60 * 1000) ∧
     (s.reportCalm d).sessionTimeout = some (d + 30 * 60 * 1000) ∧
     (s.reportStressWithCallback d).1.sessionTimeout = some (d + 30 * 60 * 1000) ∧
     (s.reportCalmWithCallback d).1.sessionTimeout = some (d + 30 * 60 * 1000) ∧
     (∀ g : Int, (s.updateFromHardware d g).sessionTimeout = some (d + 30 * 60 * 1000)) ∧
     (s.startCodingSession d).sessionTimeout = some (d + 30 * 60 * 1000)) ∧
    (s.sessionTimeout = some d →
      Step s d (s.endCodingSession d) ∧
      ∃ (i : Nat) (sess : CodingSession), s.currentSession = some i ∧
        s.arena[i]? = some sess ∧ sess.isActive = true ∧
        (s.endCodingSession d).getCurrentSession = some { sess with
          endTime := some d
          duration := some (jsRound (d - sess.startTime) (1000 * 60))
          isActive := false }) := by
  have hinv := reachable_inv h
  refine ⟨⟨rfl, rfl, rfl, rfl, fun g => rfl, rfl⟩, ?_⟩
  intro hto
  obtain ⟨i, sess, hc, ha, hact⟩ := hinv.timeoutActive d hto
  exact ⟨Step.timerFire s d hto, i, sess, hc, ha, hact,
    endCurrentSession_close hc ha hact d⟩

open MonitorState in
/-- Witness for C6 at the state after one report, whose pending timeout is
scheduled for 1800005 ms. -/
theorem C6_inactivity_timeout_witness :
    (((initialState.reportStress 5).reportStress 1800005).sessionTimeout =
        some (1800005 + 30 * 60 * 1000) ∧
     ((initialState.reportStress 5).reportCalm 1800005).sessionTimeout =
        some (1800005 + 30 * 60 * 1000) ∧
     ((initialState.reportStress 5).reportStressWithCallback 1800005).1.sessionTimeout =
        some (1800005 + 30 * 60 * 1000) ∧
     ((initialState.reportStress 5).reportCalmWithCallback 1800005).1.sessionTimeout =
        some (1800005 + 30 * 60 * 1000) ∧
     (∀ g : Int, ((initialState.reportStress 5).updateFromHardware 1800005 g).sessionTimeout =
        some (1800005 + 30 * 60 * 1000)) ∧
     ((initialState.reportStress 5).startCodingSession 1800005).sessionTimeout =
        some (1800005 + 30 * 60 * 1000)) ∧
    ((initialState.reportStress 5).sessionTimeout = some 1800005 →
      Step (initialState.reportStress 5) 1800005
        ((initialState.reportStress 5).endCodingSession 1800005) ∧
      ∃ (i : Nat) (sess : CodingSession),
        (initialState.reportStress 5).currentSession = some i ∧
        (initialState.reportStress 5).arena[i]? = some sess ∧ sess.isActive = true ∧
        ((initialState.reportStress 5).endCodingSession 1800005).getCurrentSession =
          some { sess with
            endTime := some 1800005
            duration := some (jsRound (1800005 - sess.startTime) (1000 * 60))
            isActive := false }) :=
  C6_inactivity_timeout 5 1800005 (initialState.reportStress 5)
    (Reachable.step (Reachable.init 5) (Nat.le_refl 5)
      (Step.reportStress initialState 5))

open MonitorState in
/-- Claim C7: after `clearHistory` the level reads low, the entry list and
the session list are empty (so today's queries are empty), every session
object — including the detached current one — is closed, the timeout is
cancelled, and a later run of the timeout callback (`endCurrentSession`)
leaves the state unchanged. -/
theorem C7_clear_history (t now : Nat) (s : MonitorState) (h : Reachable t s) :
    (s.clearHistory now).getCurrentLevel = StressLevel.low ∧
    (s.clearHistory now).getAllEntries = [] ∧
    (∀ midnight : Nat, (s.clearHistory now).getTodaysSessions midnight = []) ∧
    (s.clearHistory now).getAllSessions = [] ∧
    (∀ (i : Nat) (sess : CodingSession),
      (s.clearHistory now).arena[i]? = some sess → sess.isActive = false) ∧
    (s.clearHistory now).sessionTimeout = none ∧
    (∀ u : Nat, (s.clearHistory now).endCurrentSession u = s.clearHistory now) := by
  have hinv := reachable_inv h
  have hbase : Inv ({ s with entries := [], currentLevel := StressLevel.low }) :=
    hinv.congr rfl rfl rfl rfl
  have hfields := endCurrentSession_fields
    { s with entries := [], currentLevel := StressLevel.low } now
  have hnoact := endCurrentSession_no_active hbase now
  refine ⟨?_, ?_, ?_, ?_, ?_, ?_, ?_⟩
  · show ({ s with entries := [], currentLevel := StressLevel.low
      }.endCurrentSession now).currentLevel = StressLevel.low
    rw [hfields.2.1]
  · show ({ s with entries := [], currentLevel := StressLevel.low
      }.endCurrentSession now).entries = []
    rw [hfields.1]
  · intro midnight
    show (MonitorState.getTodaysSessions _ midnight) = []
    rw [clearHistory_def]
    unfold getTodaysSessions getAllSessions
    simp
  · rw [clearHistory_def]
    unfold getAllSessions
    simp
  · intro i sess hai
    exact hnoact i sess hai
  · exact hfields.2.2.2.2.2.2
  · intro u
    rcases endCurrentSession_eq (s.clearHistory now) u with
      ⟨i, sess, hc, ha, hact, -⟩ | ⟨-, heq⟩
    · exact absurd (hnoact i sess ha) (by simp [hact])
    · rw [heq]
      exact set_timeout_none_eq _ hfields.2.2.2.2.2.2

open MonitorState in
/-- Witness for C7 at the state after one report. -/
theorem C7_clear_history_witness :
    ((initialState.reportStress 5).clearHistory 6).getCurrentLevel = StressLevel.low ∧
    ((initialState.reportStress 5).clearHistory 6).getAllEntries = [] ∧
    (∀ midnight : Nat,
      ((initialState.reportStress 5).clearHistory 6).getTodaysSessions midnight = []) ∧
    ((initialState.reportStress 5).clearHistory 6).getAllSessions = [] ∧
    (∀ (i : Nat) (sess : CodingSession),
      ((initialState.reportStress 5).clearHistory 6).arena[i]? = some sess →
        sess.isActive = false) ∧
    ((initialState.reportStress 5).clearHistory 6).sessionTimeout = none ∧
    (∀ u : Nat, ((initialState.reportStress 5).clearHistory 6).endCurrentSession u =
      (initialState.reportStress 5).clearHistory 6) :=
  C7_clear_history 5 6 (initialState.reportStress 5)
    (Reachable.step (Reachable.init 5) (Nat.le_refl 5)
      (Step.reportStress initialState 5))

namespace MonitorState

/-! ### Entry bookkeeping of the report operations -/

theorem resetSessionTimeout_fields (s : MonitorState) (now : Nat) :
    (s.resetSessionTimeout now).entries = s.entries ∧
    (s.resetSessionTimeout now).arena = s.arena ∧
    (s.resetSessionTimeout now).currentSession = s.currentSession ∧
    (s.resetSessionTimeout now).currentLevel = s.currentLevel :=
  ⟨rfl, rfl, rfl, rfl⟩

theorem withLevel_arena (u : MonitorState) (lv : StressLevel) :
    ({ u with currentLevel := lv } : MonitorState).arena = u.arena := rfl

theorem reportStress_entries (s : MonitorState) (now : Nat) :
    (s.reportStress now).entries =
      s.entries ++ [(⟨now, .high, "Manual stress report"⟩ : StressEntry)] := by
  rw [reportStress_def, (resetSessionTimeout_fields _ _).1,
    (addEntryToCurrentSession_fields _ _).1]
  show (s.ensureSessionStarted now).entries ++ _ = _
  rw [(ensureSessionStarted_fields s now).1]

theorem reportCalm_entries (s : MonitorState) (now : Nat) :
    (s.reportCalm now).entries =
      s.entries ++ [(⟨now, .low, "Manual calm report"⟩ : StressEntry)] := by
  rw [reportCalm_def, (resetSessionTimeout_fields _ _).1,
    (addEntryToCurrentSession_fields _ _).1]
  show (s.ensureSessionStarted now).entries ++ _ = _
  rw [(ensureSessionStarted_fields s now).1]

theorem updateFromHardware_entries (s : MonitorState) (now : Nat) (g : Int) :
    (s.updateFromHardware now g).entries =
      s.entries ++ [(⟨now, gsrLevel g, "GSR: " ++ toString g⟩ : StressEntry)] := by
  rw [updateFromHardware_def, (resetSessionTimeout_fields _ _).1,
    (addEntryToCurrentSession_fields _ _).1]
  show (s.ensureSessionStarted now).entries ++ _ = _
  rw [(ensureSessionStarted_fields s now).1]

theorem withLevel_entries (u : MonitorState) (lv : StressLevel) :
    ({ u with currentLevel := lv } : MonitorState).entries = u.entries := rfl

theorem reportStressWithCallback_entries (s : MonitorState) (now : Nat) :
    (s.reportStressWithCallback now).1.entries =
      s.entries ++ [(⟨now, .high, "Manual stress report"⟩ : StressEntry)] := by
  rw [reportStressWithCallback_def, notifyStressLevelChange_fst, withLevel_entries,
    (resetSessionTimeout_fields _ _).1, (addEntryToCurrentSession_fields _ _).1]
  show (s.ensureSessionStarted now).entries ++ _ = _
  rw [(ensureSessionStarted_fields s now).1]

theorem reportCalmWithCallback_entries (s : MonitorState) (now : Nat) :
    (s.reportCalmWithCallback now).1.entries =
      s.entries ++ [(⟨now, .low, "Manual calm report"⟩ : StressEntry)] := by
  rw [reportCalmWithCallback_def, notifyStressLevelChange_fst, withLevel_entries,
    (resetSessionTimeout_fields _ _).1, (addEntryToCurrentSession_fields _ _).1]
  show (s.ensureSessionStarted now).entries ++ _ = _
  rw [(ensureSessionStarted_fields s now).1]

end MonitorState

/-- The five entry-recording operations, tagged for trace statements. -/
inductive ReportOp where
  | stress
  | calm
  | stressCb
  | calmCb
  | hardware (gsrValue : Int)
deriving DecidableEq, Repr

/-- Run one report operation at its call time. -/
def applyReport (s : MonitorState) : Nat × ReportOp → MonitorState
  | (t, .stress) => s.reportStress t
  | (t, .calm) => s.reportCalm t
  | (t, .stressCb) => (s.reportStressWithCallback t).1
  | (t, .calmCb) => (s.reportCalmWithCallback t).1
  | (t, .hardware g) => s.updateFromHardware t g

/-- The entry each report operation records. -/
def reportEntry : Nat × ReportOp → StressEntry
  | (t, .stress) => ⟨t, .high, "Manual stress report"⟩
  | (t, .calm) => ⟨t, .low, "Manual calm report"⟩
  | (t, .stressCb) => ⟨t, .high, "Manual stress report"⟩
  | (t, .calmCb) => ⟨t, .low, "Manual calm report"⟩
  | (t, .hardware g) => ⟨t, MonitorState.gsrLevel g, "GSR: " ++ toString g⟩

/-- Run a sequence of report operations in order. -/
def runReports (s : MonitorState) : List (Nat × ReportOp) → MonitorState
  | [] => s
  | op :: ops => runReports (applyReport s op) ops

namespace MonitorState

theorem applyReport_entries (s : MonitorState) (op : Nat × ReportOp) :
    (applyReport s op).entries = s.entries ++ [reportEntry op] := by
  rcases op with ⟨t, k⟩
  cases k
  · exact reportStress_entries s t
  · exact reportCalm_entries s t
  · exact reportStressWithCallback_entries s t
  · exact reportCalmWithCallback_entries s t
  · exact updateFromHardware_entries s t _

theorem runReports_entries (ops : List (Nat × ReportOp)) (s : MonitorState) :
    (runReports s ops).entries = s.entries ++ ops.map reportEntry := by
  induction ops generalizing s with
  | nil => simp [runReports]
  | cons op ops ih =>
    show (runReports (applyReport s op) ops).entries = _
    rw [ih (applyReport s op), applyReport_entries]
    simp

/-- `endCurrentSession` never changes any session's recorded entry list. -/
theorem endCurrentSession_events (s : MonitorState) (now : Nat) (j : Nat) :
    ((s.endCurrentSession now).arena[j]?).map (fun x => x.stressEvents) =
      (s.arena[j]?).map (fun x => x.stressEvents) := by
  rcases endCurrentSession_eq s now with ⟨i, sess, hc, ha, hact, heq⟩ | ⟨-, heq⟩
  · rw [heq]
    show ((s.arena.set i _)[j]?).map _ = _
    by_cases hij : i = j
    · subst hij
      rw [List.getElem?_set_self (lt_length_of_getElem?_some ha), ha]
      rfl
    · rw [List.getElem?_set_ne hij]
  · rw [heq]

/-- `ensureSessionStarted` changes no session's entry list outside the
(possibly new) current slot. -/
theorem ensureSessionStarted_events (st : MonitorState) (t j : Nat)
    (hj : (st.ensureSessionStarted t).currentSession ≠ some j) :
    ((st.ensureSessionStarted t).arena[j]?).map (fun x => x.stressEvents) =
      (st.arena[j]?).map (fun x => x.stressEvents) := by
  rcases ensureSessionStarted_eq st t with ⟨-, heq⟩ | ⟨-, heq⟩
  · rw [heq]
  · rw [heq] at hj ⊢
    rw [startNewSession_eq] at hj ⊢
    have hjne : j ≠ (st.endCurrentSession t).arena.length := by
      intro hh
      exact hj (by rw [hh])
    show (((st.endCurrentSession t).arena ++ _)[j]?).map _ = _
    rcases Nat.lt_trichotomy j (st.endCurrentSession t).arena.length with hlt | heq2 | hgt
    · rw [List.getElem?_append_left hlt]
      exact endCurrentSession_events st t j
    · exact absurd heq2 hjne
    · have hlen := (endCurrentSession_fields st t).2.2.2.2.2.1
      rw [List.getElem?_eq_none_iff.mpr (by simp; omega),
        List.getElem?_eq_none_iff.mpr (by omega)]

/-- Appending an entry to the active current session, for a state `R`
sharing `arena` and `currentSession` with `E`. -/
theorem addEntry_to_active {E : MonitorState} {i : Nat} {pre : CodingSession}
    (hc : E.currentSession = some i) (ha : E.arena[i]? = some pre)
    (hact : pre.isActive = true) (R : MonitorState) (hRa : R.arena = E.arena)
    (hRc : R.currentSession = E.currentSession) (e : StressEntry) :
    (R.addEntryToCurrentSession e).currentSession = some i ∧
    (R.addEntryToCurrentSession e).arena[i]? =
      some { pre with stressEvents := pre.stressEvents ++ [e] } ∧
    (∀ j : Nat, j ≠ i → (R.addEntryToCurrentSession e).arena[j]? = E.arena[j]?) := by
  rcases addEntryToCurrentSession_eq R e with ⟨i2, sess2, hc2, ha2, hact2, heq⟩ | ⟨hna, heq⟩
  · rw [hRc, hc] at hc2
    cases hc2
    rw [hRa, ha] at ha2
    cases ha2
    rw [heq]
    refine ⟨hRc.trans hc, ?_, ?_⟩
    · show (R.arena.set i _)[i]? = _
      rw [hRa, List.getElem?_set_self (lt_length_of_getElem?_some ha)]
    · intro j hj
      show (R.arena.set i _)[j]? = _
      rw [hRa, List.getElem?_set_ne (Ne.symm hj)]
  · exfalso
    refine hna ⟨i, pre, hRc.trans hc, ?_, hact⟩
    rw [hRa]
    exact ha

theorem applyReport_session_append (st : MonitorState) (op : Nat × ReportOp) :
    ∃ (i : Nat) (pre : CodingSession),
      (st.ensureSessionStarted op.1).currentSession = some i ∧
      (st.ensureSessionStarted op.1).arena[i]? = some pre ∧ pre.isActive = true ∧
      (applyReport st op).currentSession = some i ∧
      (applyReport st op).arena[i]? =
        some { pre with stressEvents := pre.stressEvents ++ [reportEntry op] } ∧
      (∀ j : Nat, j ≠ i →
        ((applyReport st op).arena[j]?).map (fun x => x.stressEvents) =
        (st.arena[j]?).map (fun x => x.stressEvents)) := by
  rcases op with ⟨t, k⟩
  obtain ⟨i, pre, hc, ha, hact⟩ := ensureSessionStarted_hasActive st t
  have hne : (st.ensureSessionStarted t).currentSession ≠ some i → False := fun hh => hh hc
  cases k
  case stress =>
    have hcore := addEntry_to_active hc ha hact
      { st.ensureSessionStarted t with
        currentLevel := StressLevel.high
        entries := (st.ensureSessionStarted t).entries ++
          [(⟨t, .high, "Manual stress report"⟩ : StressEntry)] }
      rfl rfl (⟨t, .high, "Manual stress report"⟩ : StressEntry)
    refine ⟨i, pre, hc, ha, hact, hcore.1, hcore.2.1, ?_⟩
    intro j hj
    have hr : (applyReport st (t, ReportOp.stress)).arena[j]?
        = (st.ensureSessionStarted t).arena[j]? := hcore.2.2 j hj
    rw [hr]
    refine ensureSessionStarted_events st t j ?_
    rw [hc]
    intro hh
    exact hj (Option.some.inj hh).symm
  case calm =>
    have hcore := addEntry_to_active hc ha hact
      { st.ensureSessionStarted t with
        currentLevel := StressLevel.low
        entries := (st.ensureSessionStarted t).entries ++
          [(⟨t, .low, "Manual calm report"⟩ : StressEntry)] }
      rfl rfl (⟨t, .low, "Manual calm report"⟩ : StressEntry)
    refine ⟨i, pre, hc, ha, hact, hcore.1, hcore.2.1, ?_⟩
    intro j hj
    have hr : (applyReport st (t, ReportOp.calm)).arena[j]?
        = (st.ensureSessionStarted t).arena[j]? := hcore.2.2 j hj
    rw [hr]
    refine ensureSessionStarted_events st t j ?_
    rw [hc]
    intro hh
    exact hj (Option.some.inj hh).symm
  case stressCb =>
    have hcore := addEntry_to_active hc ha hact
      { st.ensureSessionStarted t with
        entries := (st.ensureSessionStarted t).entries ++
          [(⟨t, .high, "Manual stress report"⟩ : StressEntry)] }
      rfl rfl (⟨t, .high, "Manual stress report"⟩ : StressEntry)
    refine ⟨i, pre, hc, ha, hact, hcore.1, hcore.2.1, ?_⟩
    intro j hj
    have hr : (applyReport st (t, ReportOp.stressCb)).arena[j]?
        = (st.ensureSessionStarted t).arena[j]? := hcore.2.2 j hj
    rw [hr]
    refine ensureSessionStarted_events st t j ?_
    rw [hc]
    intro hh
    exact hj (Option.some.inj hh).symm
  case calmCb =>
    have hcore := addEntry_to_active hc ha hact
      { st.ensureSessionStarted t with
        entries := (st.ensureSessionStarted t).entries ++
          [(⟨t, .low, "Manual calm report"⟩ : StressEntry)] }
      rfl rfl (⟨t, .low, "Manual calm report"⟩ : StressEntry)
    refine ⟨i, pre, hc, ha, hact, hcore.1, hcore.2.1, ?_⟩
    intro j hj
    have hr : (applyReport st (t, ReportOp.calmCb)).arena[j]?
        = (st.ensureSessionStarted t).arena[j]? := hcore.2.2 j hj
    rw [hr]
    refine ensureSessionStarted_events st t j ?_
    rw [hc]
    intro hh
    exact hj (Option.some.inj hh).symm
  case hardware g =>
    have hcore := addEntry_to_active hc ha hact
      { st.ensureSessionStarted t with
        currentLevel := gsrLevel g
        entries := (st.ensureSessionStarted t).entries ++
          [(⟨t, gsrLevel g, "GSR: " ++ toString g⟩ : StressEntry)] }
      rfl rfl (⟨t, gsrLevel g, "GSR: " ++ toString g⟩ : StressEntry)
    refine ⟨i, pre, hc, ha, hact, hcore.1, hcore.2.1, ?_⟩
    intro j hj
    have hr : (applyReport st (t, ReportOp.hardware g)).arena[j]?
        = (st.ensureSessionStarted t).arena[j]? := hcore.2.2 j hj
    rw [hr]
    refine ensureSessionStarted_events st t j ?_
    rw [hc]
    intro hh
    exact hj (Option.some.inj hh).symm

end MonitorState

open MonitorState in
/-- Claim C8: every report operation appends exactly one entry to the end
of the flat entry list — after any sequence of report calls from a fresh
monitor the list is exactly the calls' entries in call order, so its
length is the number of calls — and appends that same entry to the
stress-event list of the session that is active at that step; every other
arena slot, in particular every closed session, keeps its event list
unchanged. -/
theorem C8_report_appends (ops : List (Nat × ReportOp)) (s : MonitorState) :
    ((runReports s ops).entries = s.entries ++ ops.map reportEntry) ∧
    ((runReports initialState ops).entries = ops.map reportEntry) ∧
    ((runReports initialState ops).entries.length = ops.length) ∧
    (∀ (st : MonitorState) (op : Nat × ReportOp),
      ∃ (i : Nat) (pre : CodingSession),
        (st.ensureSessionStarted op.1).currentSession = some i ∧
        (st.ensureSessionStarted op.1).arena[i]? = some pre ∧ pre.isActive = true ∧
        (applyReport st op).currentSession = some i ∧
        (applyReport st op).arena[i]? =
          some { pre with stressEvents := pre.stressEvents ++ [reportEntry op] } ∧
        (∀ j : Nat, j ≠ i →
          ((applyReport st op).arena[j]?).map (fun x => x.stressEvents) =
          (st.arena[j]?).map (fun x => x.stressEvents))) := by
  have hinit : (runReports initialState ops).entries = ops.map reportEntry := by
    rw [runReports_entries ops initialState]
    show [] ++ _ = _
    rw [List.nil_append]
  refine ⟨runReports_entries ops s, hinit, ?_,
    fun st op => applyReport_session_append st op⟩
  rw [hinit, List.length_map]

open MonitorState in
/-- Witness for C4 at the three-session demo state. -/
theorem C4_getSessionStats_witness :
    (statsDemo.getSessionStats = statsSpec (((statsDemo.getAllSessions).filter
      (fun sess => decide (0 < sess.duration.getD 0))).map
        (fun sess => sess.duration.getD 0))) ∧
    initialState.getSessionStats = ⟨0, 0, 0⟩ ∧
    statsDemo.getSessionStats = ⟨20, 3, 30⟩ :=
  C4_getSessionStats statsDemo

open MonitorState in
/-- Witness for C8 on the one-call trace of a stress report at time 5. -/
theorem C8_report_appends_witness :
    ((runReports initialState [(5, ReportOp.stress)]).entries =
      initialState.entries ++ [(5, ReportOp.stress)].map reportEntry) ∧
    ((runReports initialState [(5, ReportOp.stress)]).entries =
      [(5, ReportOp.stress)].map reportEntry) ∧
    ((runReports initialState [(5, ReportOp.stress)]).entries.length =
      [(5, ReportOp.stress)].length) ∧
    (∀ (st : MonitorState) (op : Nat × ReportOp),
      ∃ (i : Nat) (pre : CodingSession),
        (st.ensureSessionStarted op.1).currentSession = some i ∧
        (st.ensureSessionStarted op.1).arena[i]? = some pre ∧ pre.isActive = true ∧
        (applyReport st op).currentSession = some i ∧
        (applyReport st op).arena[i]? =
          some { pre with stressEvents := pre.stressEvents ++ [reportEntry op] } ∧
        (∀ j : Nat, j ≠ i →
          ((applyReport st op).arena[j]?).map (fun x => x.stressEvents) =
          (st.arena[j]?).map (fun x => x.stressEvents))) :=
  C8_report_appends [(5, ReportOp.stress)] initialState

open MonitorState in
/-- Claim C9: misuse is neutral — in a reachable state with no active
session, `endCodingSession` returns the state unchanged (no error, no
field change) and `getCurrentSessionDuration` returns 0; when a session is
active, the duration is recomputed live as round((now − start)/60000). -/
theorem C9_misuse_neutral (t now : Nat) (s : MonitorState) (h : Reachable t s) :
    ((∀ sess : CodingSession, s.getCurrentSession = some sess →
        sess.isActive = false) →
      s.endCodingSession now = s ∧ s.getCurrentSessionDuration now = 0) ∧
    (∀ (i : Nat) (sess : CodingSession), s.currentSession = some i →
      s.arena[i]? = some sess → sess.isActive = true →
      s.getCurrentSessionDuration now = jsRound (now - sess.startTime) (1000 * 60)) := by
  have hinv := reachable_inv h
  constructor
  · intro hna
    have hto : s.sessionTimeout = none := by
      rcases hq : s.sessionTimeout with _ | d
      · rfl
      · obtain ⟨i, sess, hc, ha, hact⟩ := hinv.timeoutActive d hq
        have hgc : s.getCurrentSession = some sess := by
          unfold getCurrentSession sessionAt
          rw [hc]
          simpa using ha
        rw [hna sess hgc] at hact
        exact Bool.noConfusion hact
    constructor
    · rw [endCodingSession_def]
      rcases endCurrentSession_eq s now with ⟨i, sess, hc, ha, hact, -⟩ | ⟨-, heq⟩
      · have hgc : s.getCurrentSession = some sess := by
          unfold getCurrentSession sessionAt
          rw [hc]
          simpa using ha
        rw [hna sess hgc] at hact
        exact Bool.noConfusion hact
      · rw [heq]
        exact set_timeout_none_eq s hto
    · unfold getCurrentSessionDuration
      rcases hgc : s.getCurrentSession with _ | sess
      · rfl
      · simp [hna sess hgc]
  · intro i sess hc ha hact
    unfold getCurrentSessionDuration
    have hgc : s.getCurrentSession = some sess := by
      unfold getCurrentSession sessionAt
      rw [hc]
      simpa using ha
    rw [hgc]
    simp [hact]

open MonitorState in
/-- Witness for C9 in the initial state, where no session exists. -/
theorem C9_misuse_neutral_witness :
    ((∀ sess : CodingSession, initialState.getCurrentSession = some sess →
        sess.isActive = false) →
      initialState.endCodingSession 5 = initialState ∧
      initialState.getCurrentSessionDuration 5 = 0) ∧
    (∀ (i : Nat) (sess : CodingSession), initialState.currentSession = some i →
      initialState.arena[i]? = some sess → sess.isActive = true →
      initialState.getCurrentSessionDuration 5 =
        jsRound (5 - sess.startTime) (1000 * 60)) :=
  C9_misuse_neutral 0 5 initialState (Reachable.init 0)

open MonitorState in
/-- Claim C10: `clearHistory` does not reset the current-session
reference — it still points at the same (now closed) session object while
the session list has been emptied, so when a session was ever created
(nonempty arena) `getCurrentSession` afterwards returns a closed session
with a computed duration even though `getAllSessions` is empty; and
`getCurrentSession` is null only when no session object was ever created
(the arena records every session ever constructed). -/
theorem C10_clear_history_keeps_current (t now : Nat) (s : MonitorState)
    (h : Reachable t s) :
    ((s.clearHistory now).currentSession = s.currentSession) ∧
    (s.arena ≠ [] →
      ∃ sess : CodingSession, (s.clearHistory now).getCurrentSession = some sess ∧
        sess.isActive = false ∧ (∃ d, sess.duration = some d) ∧
        (s.clearHistory now).getAllSessions = []) ∧
    (s.getCurrentSession = none → s.arena = []) := by
  have hinv := reachable_inv h
  have hall : (s.clearHistory now).getAllSessions = [] := by
    rw [clearHistory_def]
    unfold getAllSessions
    simp
  refine ⟨?_, ?_, ?_⟩
  · rw [clearHistory_def]
    show (({ s with entries := [], currentLevel := StressLevel.low
        }).endCurrentSession now).currentSession = s.currentSession
    rw [(endCurrentSession_fields _ now).2.2.2.1]
  · intro hne
    rcases hcur : s.currentSession with _ | c
    · exact absurd (hinv.noneEmpty hcur) hne
    · have hclen : c < s.arena.length := by
        have := hinv.curLast c hcur
        omega
      rcases ha : s.arena[c]? with _ | sess
      · rw [List.getElem?_eq_none_iff] at ha
        omega
      · have hcX : ({ s with entries := [], currentLevel := StressLevel.low
            } : MonitorState).currentSession = some c := hcur
        have haX : ({ s with entries := [], currentLevel := StressLevel.low
            } : MonitorState).arena[c]? = some sess := ha
        cases hact : sess.isActive
        · -- already closed: endCurrentSession leaves the arena unchanged
          rcases endCurrentSession_eq
              { s with entries := [], currentLevel := StressLevel.low } now with
            ⟨i2, sess2, hc2, ha2, hact2, -⟩ | ⟨-, heq⟩
          · rw [hcX] at hc2
            cases hc2
            rw [haX] at ha2
            cases ha2
            rw [hact] at hact2
            exact Bool.noConfusion hact2
          · refine ⟨sess, ?_, hact, (hinv.inactiveClosed c sess ha hact).1, hall⟩
            rw [clearHistory_def]
            show (({ s with entries := [], currentLevel := StressLevel.low
                }).endCurrentSession now).getCurrentSession = some sess
            rw [heq]
            unfold getCurrentSession sessionAt
            show (s.currentSession.bind fun i => s.arena[i]?) = some sess
            rw [hcur]
            simpa using ha
        · -- active: clearHistory closes it
          refine ⟨{ sess with
              endTime := some now
              duration := some (jsRound (now - sess.startTime) (1000 * 60))
              isActive := false }, ?_, rfl, ⟨_, rfl⟩, hall⟩
          rw [clearHistory_def]
          show (({ s with entries := [], currentLevel := StressLevel.low
              }).endCurrentSession now).getCurrentSession = _
          exact endCurrentSession_close hcX haX hact now
  · intro hgc
    rcases hcur : s.currentSession with _ | c
    · exact hinv.noneEmpty hcur
    · have hclen : c < s.arena.length := by
        have := hinv.curLast c hcur
        omega
      rcases ha : s.arena[c]? with _ | sess
      · rw [List.getElem?_eq_none_iff] at ha
        omega
      · exfalso
        have : s.getCurrentSession = some sess := by
          unfold getCurrentSession sessionAt
          rw [hcur]
          simpa using ha
        rw [hgc] at this
        exact Option.noConfusion this

open MonitorState in
/-- Witness for C10 at the state after one report (one session exists). -/
theorem C10_clear_history_keeps_current_witness :
    (((initialState.reportStress 5).clearHistory 6).currentSession =
      (initialState.reportStress 5).currentSession) ∧
    ((initialState.reportStress 5).arena ≠ [] →
      ∃ sess : CodingSession,
        ((initialState.reportStress 5).clearHistory 6).getCurrentSession = some sess ∧
        sess.isActive = false ∧ (∃ d, sess.duration = some d) ∧
        ((initialState.reportStress 5).clearHistory 6).getAllSessions = []) ∧
    ((initialState.reportStress 5).getCurrentSession = none →
      (initialState.reportStress 5).arena = []) :=
  C10_clear_history_keeps_current 5 6 (initialState.reportStress 5)
    (Reachable.step (Reachable.init 5) (Nat.le_refl 5)
      (Step.reportStress initialState 5))
